import Mathlib

/-!
Shallow embedding of the SCADA turbidity dashboard (`src/app.py`):
the status classifiers, the bounded history buffer, the sidebar
statistics, the tank-level computation, the ESP32 reading fetcher
and the auto-refresh loop, together with theorems about them.
-/

namespace STI

/-- The dictionary returned by the status helpers in `app.py`:
keys `status`, `color`, `icon`, `class` (here `cls`, since `class` is
reserved). -/
structure StatusResult where
  status : String
  color : String
  icon : String
  cls : String
deriving DecidableEq, Repr

/-- `get_turbidity_status` from `app.py` (lines 42-68).  The Python takes
any value and does `float(value)` inside `try`, substituting `0.0` when
the conversion raises; we model the argument as `Option ℚ`, `none`
standing for a non-numeric / unparsable input. -/
def get_turbidity_status (value : Option ℚ) : StatusResult :=
  let v : ℚ := value.getD 0
  if v < 2 then
    { status := "Jernih", color := "#10b981", icon := "OK", cls := "status-clear" }
  else if v < 5 then
    { status := "Keruh", color := "#f59e0b", icon := "ZAP", cls := "status-turbid" }
  else
    { status := "Sangat Keruh", color := "#ef4444", icon := "WARN", cls := "status-danger" }

/-- The flow classification chain in `app.py` (lines 1054-1062):
`fval <= 0` → No Flow, `fval < 1` → Low, `fval <= 15` → Normal,
else High. -/
def flow_status (fval : ℚ) : StatusResult :=
  if fval ≤ 0 then
    { status := "No Flow", cls := "status-danger", icon := "STOP", color := "#ef4444" }
  else if fval < 1 then
    { status := "Low", cls := "status-turbid", icon := "WARN", color := "#f59e0b" }
  else if fval ≤ 15 then
    { status := "Normal", cls := "status-clear", icon := "OK", color := "#10b981" }
  else
    { status := "High", cls := "status-turbid", icon := "ZAP", color := "#f59e0b" }

/-- The temperature status chain in `app.py` (line 1100):
`"Normal" if 20 <= v <= 30 else "Warning" if 15 <= v <= 35 else "Danger"`. -/
def temp_status (v : ℚ) : String :=
  if 20 ≤ v ∧ v ≤ 30 then "Normal"
  else if 15 ≤ v ∧ v ≤ 35 then "Warning"
  else "Danger"

/-- The pressure status chain in `app.py` (line 1129). -/
def pressure_status (v : ℚ) : String :=
  if 1 ≤ v ∧ v ≤ 2 then "Normal"
  else if 1/2 ≤ v ∧ v ≤ 3 then "Warning"
  else "Danger"

/-- The pH status chain in `app.py` (line 1158). -/
def ph_status (v : ℚ) : String :=
  if 13/2 ≤ v ∧ v ≤ 17/2 then "Normal"
  else if 5 ≤ v ∧ v ≤ 9 then "Warning"
  else "Danger"

/-! ### History buffer -/

/-- One append step of the history update in `app.py` (lines 955-969):
`pd.concat([history, new_row])` followed by
`if len(history) > 100: history = history.iloc[-100:]`.
The truncation is content-independent, so we state it for any row type. -/
def hist_append {α : Type} (h : List α) (r : α) : List α :=
  let h2 := h ++ [r]
  if h2.length > 100 then h2.drop (h2.length - 100) else h2

/-- Running a whole sequence of appends starting from a given buffer. -/
def hist_run {α : Type} (h : List α) (rs : List α) : List α :=
  rs.foldl hist_append h

/-! ### Sidebar live statistics -/

/-- One row of the history DataFrame
(`time`, `PTU300`, `PTU8011`, `Temperature`, `Pressure`, `Flow`, `pH`). -/
structure HistRow where
  time : String
  ptu300 : ℚ
  ptu8011 : ℚ
  temperature : ℚ
  pressure : ℚ
  flow : ℚ
  ph : ℚ
deriving DecidableEq, Repr

/-- Mean of a list of rationals, as pandas `.mean()` on a nonempty series. -/
def listMean (l : List ℚ) : ℚ := l.sum / l.length

/-- Maximum of a list of rationals, as pandas `.max()` on a nonempty series
(only ever applied to nonempty lists by `sidebar_stats`). -/
def listMax (l : List ℚ) : ℚ :=
  match l with
  | [] => 0
  | x :: xs => xs.foldl max x

/-- The metrics the sidebar shows when history is nonempty
(`app.py` lines 870-901). -/
structure SidebarStats where
  dataPoints : ℕ
  avgPtu300 : ℚ
  avgPtu8011 : ℚ
  avgTemp : ℚ
  avgPressure : ℚ
  avgFlow : ℚ
  avgPh : ℚ
  maxPtu300 : ℚ
  maxTemp : ℚ
deriving DecidableEq, Repr

/-- The sidebar statistics block (`app.py` lines 870-906):
`if len(history) > 0:` compute the averages and maxima, `else:` show the
"No data available yet" info box, modelled as `none`. -/
def sidebar_stats (h : List HistRow) : Option SidebarStats :=
  if h.length > 0 then
    some
      { dataPoints := h.length
        avgPtu300 := listMean (h.map HistRow.ptu300)
        avgPtu8011 := listMean (h.map HistRow.ptu8011)
        avgTemp := listMean (h.map HistRow.temperature)
        avgPressure := listMean (h.map HistRow.pressure)
        avgFlow := listMean (h.map HistRow.flow)
        avgPh := listMean (h.map HistRow.ph)
        maxPtu300 := listMax (h.map HistRow.ptu300)
        maxTemp := listMax (h.map HistRow.temperature) }
  else none

/-! ### Tank level -/

/-- The tank-level computation (`app.py` lines 972-976):
`try: tank_level = 50 + (float(ptu300) - float(ptu8011)) * 5 except: 50`,
then `tank_level = max(10, min(90, tank_level))`.  A `none` argument
stands for a value on which `float` raises. -/
def tank_level (ptu300 ptu8011 : Option ℚ) : ℚ :=
  let t : ℚ :=
    match ptu300, ptu8011 with
    | some a, some b => 50 + (a - b) * 5
    | _, _ => 50
  max 10 (min 90 t)

/-! ### Reading fetcher -/

/-- The six payload fields `read_esp32_data` extracts. -/
inductive SensorField where
  | ptu300 | ptu8011 | flow | ph | temperature | pressure
deriving DecidableEq, Repr

/-- The per-field defaults in `data.get(key, default)`
(`app.py` lines 822-827). -/
def defaultFor : SensorField → ℚ
  | .ptu300 => 0
  | .ptu8011 => 0
  | .flow => 0
  | .ph => 7
  | .temperature => 25
  | .pressure => 1

/-- The dictionary `read_esp32_data` returns. -/
structure SensorReading where
  ptu300 : ℚ
  ptu8011 : ℚ
  flow : ℚ
  ph : ℚ
  temperature : ℚ
  pressure : ℚ
deriving DecidableEq, Repr

/-- Field projection of a `SensorReading`. -/
def SensorReading.field (r : SensorReading) : SensorField → ℚ
  | .ptu300 => r.ptu300
  | .ptu8011 => r.ptu8011
  | .flow => r.flow
  | .ph => r.ph
  | .temperature => r.temperature
  | .pressure => r.pressure

/-- The all-defaults reading returned on any failure (`app.py` line 831). -/
def defaultReading : SensorReading :=
  { ptu300 := 0, ptu8011 := 0, flow := 0, ph := 7, temperature := 25, pressure := 1 }

/-- What a JSON payload holds for one key: the key is absent, holds a value
`float` coerces to `q`, or holds a value on which `float` raises. -/
inductive FieldVal where
  | missing
  | num (q : ℚ)
  | nonNumeric
deriving DecidableEq

/-- `float(data.get(key, default))` for one field: `missing` takes the
default, a coercible value parses, a non-coercible value raises (`none`). -/
def parseField (p : SensorField → FieldVal) (f : SensorField) : Option ℚ :=
  match p f with
  | .missing => some (defaultFor f)
  | .num q => some q
  | .nonNumeric => none

/-- The dictionary construction inside the `try` block (`app.py` lines
821-828): the six `float(data.get(...))` calls run in order inside one
`try`, so the first raising field aborts the whole construction. -/
def extractPayload (p : SensorField → FieldVal) : Option SensorReading :=
  (parseField p .ptu300).bind fun a =>
  (parseField p .ptu8011).bind fun b =>
  (parseField p .flow).bind fun fl =>
  (parseField p .ph).bind fun phv =>
  (parseField p .temperature).bind fun t =>
  (parseField p .pressure).bind fun pr =>
  some { ptu300 := a, ptu8011 := b, flow := fl, ph := phv, temperature := t, pressure := pr }

/-- The possible outcomes of `requests.get(url, timeout=3)` plus body
parsing: an exception (network error / timeout), a non-200 status, a body
`r.json()` rejects, or a JSON object assigning each key a `FieldVal`. -/
inductive FetchOutcome where
  | netError
  | non200
  | badBody
  | ok (p : SensorField → FieldVal)

/-- `read_esp32_data` from `app.py` (lines 815-831): on a 200 response with
a JSON body, build the reading field by field inside `try`; every other
path (exception, non-200 fallthrough, bad body, raising field) returns the
all-defaults dictionary. -/
def read_esp32_data : FetchOutcome → SensorReading
  | .netError => defaultReading
  | .non200 => defaultReading
  | .badBody => defaultReading
  | .ok p => (extractPayload p).getD defaultReading

/-! ### Refresh scheduler -/

/-- The session-state default `st.session_state.auto_refresh = True`
(`app.py` lines 32-33). -/
def auto_refresh_init : Bool := true

/-- The `while True:` render loop (`app.py` lines 953-1291), abstracted to
what it does with the auto-refresh flag: each iteration performs one
fetch-classify-append-render pass, then reads `st.session_state.auto_refresh`
(`flags n` is its value observed after pass `n`); if true it sleeps and
loops, if false it breaks.  `fuel` bounds how many iterations we unroll;
the result is the number of passes performed. -/
def loopPasses (flags : ℕ → Bool) : ℕ → ℕ → ℕ
  | 0, n => n
  | fuel + 1, n =>
    if flags n then loopPasses flags fuel (n + 1) else n + 1

/-! ### Concrete payloads used by witnesses and counterexamples -/

/-- A payload whose turbidity-A value is non-numeric while its flow field
is the well-formed numeric `5`. -/
def payloadBadA : SensorField → FieldVal
  | .ptu300 => .nonNumeric
  | .flow => .num 5
  | _ => .missing

/-- A payload with PTU8011 missing and every other field well-formed,
as in end-to-end scenario 1 of the spec. -/
def payloadScenario1 : SensorField → FieldVal
  | .ptu300 => .num (3/2)
  | .ptu8011 => .missing
  | .flow => .num 0
  | .ph => .num (36/5)
  | .temperature => .num 22
  | .pressure => .num (3/2)

/-!
## Theorems
-/

/-- C1: for every numeric turbidity value `v`, `get_turbidity_status`
returns status "Jernih" iff `v < 2`, "Keruh" iff `2 ≤ v < 5` and
"Sangat Keruh" iff `v ≥ 5`; the three conditions partition ℚ, so every
value — in particular the boundaries 2 and 5 — lands in exactly one tier. -/
theorem turbidity_tier_partition (v : ℚ) :
    ((get_turbidity_status (some v)).status = "Jernih" ↔ v < 2) ∧
    ((get_turbidity_status (some v)).status = "Keruh" ↔ 2 ≤ v ∧ v < 5) ∧
    ((get_turbidity_status (some v)).status = "Sangat Keruh" ↔ 5 ≤ v) := by
  simp only [get_turbidity_status, Option.getD]
  split_ifs with h1 h2 <;>
    refine ⟨?_, ?_, ?_⟩ <;> simp_all <;> linarith

/-- The common shape of the three `"Normal" if A else "Warning" if B else
"Danger"` chains, for nested bands (`A → B`). -/
lemma chain_iff (A B : Prop) [Decidable A] [Decidable B] (hAB : A → B) :
    ((if A then "Normal" else if B then "Warning" else "Danger") = "Normal" ↔ A) ∧
    ((if A then "Normal" else if B then "Warning" else "Danger") = "Warning" ↔ B ∧ ¬A) ∧
    ((if A then "Normal" else if B then "Warning" else "Danger") = "Danger" ↔ ¬B) := by
  split_ifs with h1 h2 <;> simp_all

/-- C6: the temperature classifier returns "Normal" iff `20 ≤ v ≤ 30`,
"Warning" iff `15 ≤ v ≤ 35` outside the normal band, "Danger" iff outside
`15–35`; analogously pressure with bands `1.0–2.0` and `0.5–3.0`, and pH
with bands `6.5–8.5` and `5–9`. -/
theorem band_classifier_partition (v : ℚ) :
    (temp_status v = "Normal" ↔ 20 ≤ v ∧ v ≤ 30) ∧
    (temp_status v = "Warning" ↔ (15 ≤ v ∧ v ≤ 35) ∧ ¬(20 ≤ v ∧ v ≤ 30)) ∧
    (temp_status v = "Danger" ↔ ¬(15 ≤ v ∧ v ≤ 35)) ∧
    (pressure_status v = "Normal" ↔ 1 ≤ v ∧ v ≤ 2) ∧
    (pressure_status v = "Warning" ↔ (1/2 ≤ v ∧ v ≤ 3) ∧ ¬(1 ≤ v ∧ v ≤ 2)) ∧
    (pressure_status v = "Danger" ↔ ¬(1/2 ≤ v ∧ v ≤ 3)) ∧
    (ph_status v = "Normal" ↔ 13/2 ≤ v ∧ v ≤ 17/2) ∧
    (ph_status v = "Warning" ↔ (5 ≤ v ∧ v ≤ 9) ∧ ¬(13/2 ≤ v ∧ v ≤ 17/2)) ∧
    (ph_status v = "Danger" ↔ ¬(5 ≤ v ∧ v ≤ 9)) := by
  have ht := chain_iff (20 ≤ v ∧ v ≤ 30) (15 ≤ v ∧ v ≤ 35)
    (fun h => ⟨by linarith [h.1], by linarith [h.2]⟩)
  have hp := chain_iff (1 ≤ v ∧ v ≤ 2) (1/2 ≤ v ∧ v ≤ 3)
    (fun h => ⟨by linarith [h.1], by linarith [h.2]⟩)
  have hh := chain_iff (13/2 ≤ v ∧ v ≤ 17/2) (5 ≤ v ∧ v ≤ 9)
    (fun h => ⟨by linarith [h.1], by linarith [h.2]⟩)
  exact ⟨ht.1, ht.2.1, ht.2.2, hp.1, hp.2.1, hp.2.2, hh.1, hh.2.1, hh.2.2⟩

/-- C8: `get_turbidity_status` is a pure total function of its argument:
equal inputs give equal outputs, a non-numeric input (`none`) is classified
exactly like `0.0`, and every input yields one of the three documented
statuses (it never fails to return). -/
theorem turbidity_pure_total :
    (∀ x y : Option ℚ, x = y → get_turbidity_status x = get_turbidity_status y) ∧
    get_turbidity_status none = get_turbidity_status (some 0) ∧
    (∀ x : Option ℚ,
      (get_turbidity_status x).status = "Jernih" ∨
      (get_turbidity_status x).status = "Keruh" ∨
      (get_turbidity_status x).status = "Sangat Keruh") := by
  refine ⟨fun x y h => h ▸ rfl, rfl, fun x => ?_⟩
  simp only [get_turbidity_status]
  split_ifs <;> simp

/-- Witness for C8 at a concrete input. -/
theorem turbidity_pure_total_witness :
    get_turbidity_status (some 3) = get_turbidity_status (some 3) :=
  turbidity_pure_total.1 (some 3) (some 3) rfl

/-- Counterexample to C3 as stated: at the flow value `0.5` we have
`0 < 0.5 ≤ 15`, yet the classifier assigns the "Low" tier with the Warning
class `status-turbid`, not the Clear/Normal tier — the code has a fourth
branch `fval < 1` between No Flow and Normal. -/
theorem flow_three_tier_cex :
    (0 : ℚ) < 1/2 ∧ (1 : ℚ)/2 ≤ 15 ∧
    (flow_status (1/2)).status = "Low" ∧
    (flow_status (1/2)).cls = "status-turbid" ∧
    (flow_status (1/2)).status ≠ "Normal" ∧
    (flow_status (1/2)).cls ≠ "status-clear" := by
  have hs : flow_status (1/2) =
      { status := "Low", cls := "status-turbid", icon := "WARN", color := "#f59e0b" } := by
    norm_num [flow_status]
  refine ⟨by norm_num, by norm_num, ?_, ?_, ?_, ?_⟩ <;> rw [hs] <;> decide

/-- C3 (amended): the flow classifier has four branches that partition all
flow values — "No Flow" (Danger class) iff `v ≤ 0`, "Low" (Warning class)
iff `0 < v < 1`, "Normal" (Clear class) iff `1 ≤ v ≤ 15`, and "High"
(Warning class) iff `v > 15`. -/
theorem flow_tier_partition (v : ℚ) :
    ((flow_status v).status = "No Flow" ↔ v ≤ 0) ∧
    ((flow_status v).status = "Low" ↔ 0 < v ∧ v < 1) ∧
    ((flow_status v).status = "Normal" ↔ 1 ≤ v ∧ v ≤ 15) ∧
    ((flow_status v).status = "High" ↔ 15 < v) ∧
    ((flow_status v).cls = "status-danger" ↔ v ≤ 0) ∧
    ((flow_status v).cls = "status-clear" ↔ 1 ≤ v ∧ v ≤ 15) ∧
    ((flow_status v).cls = "status-turbid" ↔ (0 < v ∧ v < 1) ∨ 15 < v) := by
  unfold flow_status
  split_ifs with h1 h2 h3 <;>
    refine ⟨?_, ?_, ?_, ?_, ?_, ?_, ?_⟩ <;> simp_all <;>
    first
      | linarith
      | (constructor <;> linarith)
      | (intro h; linarith)

/-- C9: over an empty history buffer the sidebar-statistics path returns
the documented empty result (the "no data" info box, `none`) and computes
no aggregate; it produces `none` exactly when the buffer is empty. -/
theorem sidebar_stats_empty (h : List HistRow) :
    sidebar_stats [] = none ∧ (sidebar_stats h = none ↔ h = []) := by
  constructor
  · rfl
  · cases h <;> simp [sidebar_stats]

/-- The closed form of the history update: running any append sequence
from the empty buffer leaves exactly the last 100 elements, in order. -/
lemma hist_run_closed {α : Type} (rs : List α) :
    hist_run [] rs = rs.drop (rs.length - 100) := by
  induction rs using List.reverseRecOn with
  | nil => rfl
  | append_singleton l r ih =>
    rw [hist_run] at ih ⊢
    rw [List.foldl_append, List.foldl_cons, List.foldl_nil, ih, hist_append]
    by_cases hl : l.length ≤ 99
    · have h1 : l.length - 100 = 0 := by omega
      have h2 : ¬ (l.drop (l.length - 100) ++ [r]).length > 100 := by
        simp [List.length_drop]; omega
      have h4 : (l ++ [r]).length - 100 = 0 := by simp; omega
      rw [if_neg h2, h1, h4]
      simp
    · have hlen : (l.drop (l.length - 100)).length = 100 := by
        simp [List.length_drop]; omega
      have h2 : (l.drop (l.length - 100) ++ [r]).length > 100 := by
        simp [hlen]
      have h3 : (l.drop (l.length - 100) ++ [r]).length - 100 = 1 := by
        simp [hlen]
      rw [if_pos h2, h3]
      rw [List.drop_append_of_le_length (by rw [hlen]; omega)]
      rw [List.drop_drop]
      rw [show l.length - 100 + 1 = (l ++ [r]).length - 100 by simp; omega]
      have h5 : (l ++ [r]).length - 100 ≤ l.length := by
        simp only [List.length_append, List.length_cons, List.length_nil]
        omega
      rw [List.drop_append_of_le_length h5]

/-- C2: after any sequence of appends starting from the empty buffer, the
buffer holds exactly the last 100 appended rows in their original order
(all of them when there are at most 100), its length is `min N 100` — so
exactly 100 when `N > 100` and `N` otherwise — and the length never
exceeds 100; eviction thus removes precisely the oldest entries. -/
theorem history_capacity (α : Type) (rs : List α) :
    hist_run [] rs = rs.drop (rs.length - 100) ∧
    (hist_run [] rs).length = min rs.length 100 ∧
    (hist_run [] rs).length ≤ 100 := by
  refine ⟨hist_run_closed rs, ?_, ?_⟩ <;>
    rw [hist_run_closed rs] <;> simp [List.length_drop] <;> omega

/-- Clamping the neutral value 50 into `[10, 90]` leaves it unchanged. -/
lemma clamp_fifty : max (10 : ℚ) (min 90 50) = 50 := by
  rw [min_eq_right (by norm_num : (50 : ℚ) ≤ 90),
    max_eq_right (by norm_num : (10 : ℚ) ≤ 50)]

/-- C10: the tank level is `50 + (ptu300 - ptu8011) * 5` clamped into
`[10, 90]`, hence always between 10 and 90 inclusive, and a non-numeric
input on either side yields the midpoint 50. -/
theorem tank_level_clamped :
    (∀ a b : ℚ, tank_level (some a) (some b) = max 10 (min 90 (50 + (a - b) * 5))) ∧
    (∀ x y : Option ℚ, 10 ≤ tank_level x y ∧ tank_level x y ≤ 90) ∧
    (∀ x : Option ℚ, tank_level none x = 50 ∧ tank_level x none = 50) := by
  refine ⟨fun a b => rfl, fun x y => ⟨le_max_left _ _, ?_⟩, fun x => ⟨?_, ?_⟩⟩
  · exact max_le (by norm_num) (min_le_left _ _)
  · cases x with
    | none => exact clamp_fifty
    | some b => exact clamp_fifty
  · cases x with
    | none => exact clamp_fifty
    | some a => exact clamp_fifty

/-- A field the payload marks missing parses to its default. -/
lemma parseField_missing (p : SensorField → FieldVal) (f : SensorField)
    (h : p f = .missing) : parseField p f = some (defaultFor f) := by
  simp [parseField, h]

/-- A well-formed numeric field parses to its value. -/
lemma parseField_num (p : SensorField → FieldVal) (f : SensorField) (q : ℚ)
    (h : p f = .num q) : parseField p f = some q := by
  simp [parseField, h]

/-- If any field of the payload is non-numeric, the whole dictionary
construction aborts (the `try` block catches the `float` exception). -/
lemma extractPayload_none (p : SensorField → FieldVal) (f : SensorField)
    (hf : parseField p f = none) : extractPayload p = none := by
  cases f <;>
    cases h1 : parseField p .ptu300 <;>
    cases h2 : parseField p .ptu8011 <;>
    cases h3 : parseField p .flow <;>
    cases h4 : parseField p .ph <;>
    cases h5 : parseField p .temperature <;>
    cases h6 : parseField p .pressure <;>
    simp_all [extractPayload]

/-- Counterexample to C4 as stated: in the payload `payloadBadA` the flow
field is the well-formed numeric `5`, but because the turbidity-A field is
non-numeric the fetcher rejects the whole payload and returns the
all-defaults reading — the returned flow is `0.0`, not the payload's `5`. -/
theorem fetch_per_field_cex :
    payloadBadA .flow = .num 5 ∧
    payloadBadA .ptu300 = .nonNumeric ∧
    read_esp32_data (.ok payloadBadA) = defaultReading ∧
    (read_esp32_data (.ok payloadBadA)).flow = 0 ∧
    (read_esp32_data (.ok payloadBadA)).flow ≠ 5 := by
  refine ⟨rfl, rfl, rfl, rfl, by decide⟩

/-- C4 (amended): per-field defaulting holds for missing fields — when no
field of the payload is non-numeric, each missing field comes back as its
documented default and each well-formed numeric field comes back as its
parsed value; but a payload containing any non-numeric field is rejected
as a whole (every field defaults), because all six `float` coercions run
inside one `try`. -/
theorem fetch_per_field_defaults (p : SensorField → FieldVal)
    (hp : ∀ g, p g ≠ .nonNumeric) (f : SensorField) :
    (p f = .missing → (read_esp32_data (.ok p)).field f = defaultFor f) ∧
    (∀ q : ℚ, p f = .num q → (read_esp32_data (.ok p)).field f = q) := by
  have hex : ∀ g, ∃ a, parseField p g = some a := by
    intro g
    cases hg : p g with
    | missing => exact ⟨_, parseField_missing p g hg⟩
    | num q => exact ⟨q, parseField_num p g q hg⟩
    | nonNumeric => exact absurd hg (hp g)
  obtain ⟨a, ha⟩ := hex .ptu300
  obtain ⟨b, hb⟩ := hex .ptu8011
  obtain ⟨fl, hfl⟩ := hex .flow
  obtain ⟨phv, hph⟩ := hex .ph
  obtain ⟨t, ht⟩ := hex .temperature
  obtain ⟨pr, hpr⟩ := hex .pressure
  have hread : read_esp32_data (.ok p) =
      { ptu300 := a, ptu8011 := b, flow := fl, ph := phv, temperature := t, pressure := pr } := by
    simp [read_esp32_data, extractPayload, ha, hb, hfl, hph, ht, hpr]
  constructor
  · intro hm
    have hpf := parseField_missing p f hm
    cases f <;> simp_all [SensorReading.field]
  · intro q hq
    have hpf := parseField_num p f q hq
    cases f <;> simp_all [SensorReading.field]

/-- Witness for C4 (amended): in `payloadScenario1` (no non-numeric field)
the missing PTU8011 field defaults to `0` while the present temperature
field keeps its value `22`. -/
theorem fetch_per_field_defaults_witness :
    (read_esp32_data (.ok payloadScenario1)).field .ptu8011 = defaultFor .ptu8011 ∧
    (read_esp32_data (.ok payloadScenario1)).field .temperature = 22 :=
  ⟨(fetch_per_field_defaults payloadScenario1 (by intro g; cases g <;> simp [payloadScenario1])
      .ptu8011).1 rfl,
   (fetch_per_field_defaults payloadScenario1 (by intro g; cases g <;> simp [payloadScenario1])
      .temperature).2 22 rfl⟩

/-- C5: on every failing outcome — network error / timeout exception,
non-200 status, unparsable body, or a payload with any non-numeric
field — the fetcher returns the reading populated entirely from the
defaults `{0, 0, 0, 7, 25, 1}`; being a total function, it never raises
past its boundary. -/
theorem fetch_failure_all_defaults :
    read_esp32_data .netError = defaultReading ∧
    read_esp32_data .non200 = defaultReading ∧
    read_esp32_data .badBody = defaultReading ∧
    (∀ (p : SensorField → FieldVal) (f : SensorField), p f = .nonNumeric →
      read_esp32_data (.ok p) = defaultReading) ∧
    defaultReading = (⟨0, 0, 0, 7, 25, 1⟩ : SensorReading) := by
  refine ⟨rfl, rfl, rfl, fun p f hf => ?_, rfl⟩
  have hpf : parseField p f = none := by simp [parseField, hf]
  simp [read_esp32_data, extractPayload_none p f hpf]

/-- Witness for C5 at the concrete payload `payloadBadA`, whose
turbidity-A field is non-numeric. -/
theorem fetch_failure_all_defaults_witness :
    read_esp32_data (.ok payloadBadA) = defaultReading :=
  fetch_failure_all_defaults.2.2.2.1 payloadBadA .ptu300 rfl

/-- Unrolling the render loop: if the auto-refresh flag reads `true` after
each of the first `k` passes and `false` after pass `k`, the loop performs
exactly `k + 1` passes (counting from pass index `n`) and exits. -/
lemma loopPasses_first_false (flags : ℕ → Bool) :
    ∀ (fuel k n : ℕ), (∀ j, j < k → flags (n + j) = true) →
      flags (n + k) = false → k < fuel →
      loopPasses flags fuel n = n + k + 1 := by
  intro fuel
  induction fuel with
  | zero => intro k n _ _ hk; omega
  | succ m ih =>
    intro k n htrue hfalse hk
    cases k with
    | zero =>
      have h0 : flags n = false := by simpa using hfalse
      simp [loopPasses, h0]
    | succ k2 =>
      have h0 : flags n = true := by simpa using htrue 0 (Nat.succ_pos k2)
      have step : loopPasses flags (m + 1) n = loopPasses flags m (n + 1) := by
        simp [loopPasses, h0]
      rw [step]
      have := ih k2 (n + 1)
        (fun j hj => by
          have := htrue (j + 1) (by omega)
          simpa [Nat.add_assoc, Nat.add_comm, Nat.add_left_comm] using this)
        (by simpa [Nat.add_assoc, Nat.add_comm, Nat.add_left_comm] using hfalse)
        (by omega)
      omega

/-- C7: auto-refresh is enabled by default (the scheduler starts RUNNING),
and once the operator disables it — the flag reads `false` after some pass
`k`, having read `true` after every earlier pass — the loop finishes that
pass and exits: exactly `k + 1` passes occur, so no further poll follows
the STOPPED transition in that session. -/
theorem scheduler_stops_after_current_pass :
    auto_refresh_init = true ∧
    ∀ (flags : ℕ → Bool) (k fuel : ℕ),
      (∀ j, j < k → flags j = true) → flags k = false → k < fuel →
      loopPasses flags fuel 0 = k + 1 := by
  refine ⟨rfl, fun flags k fuel htrue hfalse hk => ?_⟩
  have := loopPasses_first_false flags fuel k 0
    (fun j hj => by simpa using htrue j hj) (by simpa using hfalse) hk
  simpa using this

/-- Witness for C7: with the flag disabled after the third pass the loop
performs exactly three passes. -/
theorem scheduler_stops_witness :
    loopPasses (fun n => decide (n < 2)) 5 0 = 2 + 1 :=
  scheduler_stops_after_current_pass.2 (fun n => decide (n < 2)) 2 5
    (fun j hj => decide_eq_true hj) (by decide) (by decide)

end STI
